import Mathlib

/-!
Shallow embedding of `src/build_database.py` (the cocktailsDB ingestion script).

Modelling conventions:
* Timestamps (`dateOfSale`, watermark values) are `Nat`.  A pandas
  `Series.max()` over a datetime column yields `NaT` exactly when the series is
  empty; we model the max of a column as `Option Nat`, with `none` standing for
  the string `"NaT"` that `str(...)` produces and that the script writes to
  `last_update.txt`.
* `last_update.txt` is modelled structurally as a list of
  `(key, Option Nat)` pairs: `some n` is a date string, `none` the literal
  `"NaT"`.  Reading the file into `date_dict` (lines 99-104) builds a python
  dict where later lines overwrite earlier ones; `fileToDict` reproduces that
  by folding over the lines.  A `date_dict[k]` access on a missing key raises
  `KeyError`; `fileToDict` returning `Option` captures presence/absence and
  `runMain` turns absence into the `keyError` outcome.
* DataFrames are lists of rows.  Row-preserving pandas steps that only reformat
  cell contents and are irrelevant to every claim here — `applymap(lower)`,
  `price.astype(float)`, the `saleID`/`stockID` reindexing, and the
  `pd.to_datetime` conversion of `dateModified` (which happens after the sort
  and is excluded from the `drop_duplicates` subset) — are not modelled.
* The second read of `last_update.txt` (lines 168-173) assigns a variable that
  is never used afterwards and is omitted.
* Fallible effects (the cocktaildb GET request, `sqlite3` execution, file
  reads, the `to_sql` calls) are passed in as parameters returning
  `Except`/sum values, so each claim can be evaluated under every behaviour of
  the external world.
-/

/-- One normalized sale row as produced by the three `pd.read_csv` calls with
`names=["dateOfSale", "drink", "price"]` (the added `bar` column is determined
by the source and is not needed by any claim). -/
structure SaleRecord where
  dateOfSale : Nat
  drink : String
  price : Int
deriving DecidableEq, Repr

/-- Lines 131-133 / 146 / 159: `df.loc[df["dateOfSale"] > watermark]`.
When the stored watermark is a date (`some w`) pandas keeps the rows with a
strictly greater timestamp; when the stored value is the string `"NaT"`
(`none`), every comparison `Timestamp > NaT` is `False` and nothing is kept. -/
def wmFilter : Option Nat → List SaleRecord → List SaleRecord
  | some w, rows => rows.filter (fun r => w < r.dateOfSale)
  | none, _ => []

/-- `Series.max()` over a column, modelled on the list of cell values: `none`
(pandas `NaT`) exactly on the empty series, otherwise the maximum. -/
def seriesMax : List Nat → Option Nat
  | [] => none
  | d :: ds =>
    match seriesMax ds with
    | none => some d
    | some m => some (max d m)

/-- Lines 131-134: the value written back for a source, e.g.
`budapest_max_date = str(budapest_df.dateOfSale.max())` — the max is taken of
the ALREADY FILTERED frame (the `budapest_df` name was rebound on line 131). -/
def wmCandidate (w : Option Nat) (rows : List SaleRecord) : Option Nat :=
  seriesMax ((wmFilter w rows).map (fun r => r.dateOfSale))

/-- Lines 99-104: build `date_dict` from the file lines (later lines overwrite
earlier keys, as for a python dict) and look a key up; `none` means the key is
absent, so that `date_dict[k]` would raise `KeyError`. -/
def fileToDict (lines : List (String × Option Nat)) (k : String) : Option (Option Nat) :=
  lines.foldl (fun acc p => if p.1 = k then some p.2 else acc) none

/-- Lines 163-166: the rewritten contents of `last_update.txt`, in the order
the f-string writes them (NYC, LON, BUDA). -/
def newLastUpdate (nyMax lonMax budaMax : Option Nat) : List (String × Option Nat) :=
  [("NYC_date_max", nyMax), ("LON_date_max", lonMax), ("BUDA_date_max", budaMax)]

/-- One row of the cocktaildb API response, restricted to the seven columns the
script selects on lines 199-209 (the remaining response columns are dropped
there and never used).  `dateModified` is kept as the string the API returns,
which is how the script still has it when it sorts on line 219. -/
structure CatalogRow where
  idDrink : String
  strDrink : String
  strCategory : String
  strIBA : String
  strAlcoholic : String
  strGlass : String
  dateModified : String
deriving DecidableEq, Repr

/-- Behaviour of one `search.php?s=<drink>` GET: either a response whose
`json()["drinks"]` yields a list of rows, or any failure (transport error,
malformed payload, `drinks: null`), which the `except` branch of
`cocktail_extract` turns into an empty DataFrame. -/
inductive LookupResult where
  | ok (rows : List CatalogRow)
  | failure
deriving Repr

/-- Lines 11-34, `cocktail_extract`: on success the rows of the payload, on any
exception an empty DataFrame (the function itself never raises). -/
def cocktail_extract (lookup : String → LookupResult) (drink : String) : List CatalogRow :=
  match lookup drink with
  | .ok rows => rows
  | .failure => []

/-- The exceptions that can escape the `__main__` block in the parts modelled
here: `KeyError` (missing dict key, or column selection on a frame without the
columns), `ValueError` (line 217 `pd.concat(dfs)` with an empty list of
frames, i.e. no drinks were ingested so the loop never appended a frame), and
any `sqlite3`/`to_sql` error. -/
inductive RunError where
  | keyError
  | valueError
  | sqlError
deriving DecidableEq, Repr

/-- Lines 199-209: `df[["idDrink", ..., "dateModified"]]`.  On the empty frame
returned by a failed `cocktail_extract` the frame has no columns at all and the
selection raises `KeyError`; on a frame built from API rows all seven columns
exist and the selection keeps the rows. -/
def selectCols : List CatalogRow → Except RunError (List CatalogRow)
  | [] => .error .keyError
  | r :: rs => .ok (r :: rs)

/-- Lines 194-214: the enrichment loop.  For each drink, run
`cocktail_extract`, select the seven columns (which raises on an empty result,
aborting the loop and the run), and append the frame to `dfs`. -/
def enrichmentLoop (lookup : String → LookupResult) : List String → Except RunError (List (List CatalogRow))
  | [] => .ok []
  | d :: ds =>
    match selectCols (cocktail_extract lookup d) with
    | .error e => .error e
    | .ok sel =>
      match enrichmentLoop lookup ds with
      | .error e => .error e
      | .ok rest => .ok (sel :: rest)

/-- The sequence of drinks actually submitted to the lookup service by the
enrichment loop (one GET per iteration; after a failed iteration the loop has
raised and no further drink is queried). -/
def enrichmentCalls (lookup : String → LookupResult) : List String → List String
  | [] => []
  | d :: ds =>
    match selectCols (cocktail_extract lookup d) with
    | .error _ => [d]
    | .ok _ => d :: enrichmentCalls lookup ds

/-- `df.drink.unique().tolist()` — the distinct drink names of a frame. -/
def uniqueDrinks (rows : List SaleRecord) : List String :=
  (rows.map (fun r => r.drink)).dedup

/-- Lines 185-191: `list(set(london.unique + new_york.unique + budapest.unique))`.
A python set is unordered; we model it as `dedup` of the concatenation, which
has the same members and no duplicates. -/
def masterDrinks (london_df new_york_df budapest_df : List SaleRecord) : List String :=
  (uniqueDrinks london_df ++ uniqueDrinks new_york_df ++ uniqueDrinks budapest_df).dedup

/-- Stable insertion step for a descending sort on the `dateModified` string
(line 219 sorts before the column is converted to datetime, so the comparison
is python's string comparison: lexicographic by code point, which is `<` on
the strings' character lists). -/
def insertDesc (x : CatalogRow) : List CatalogRow → List CatalogRow
  | [] => [x]
  | y :: ys =>
    if x.dateModified.data < y.dateModified.data then y :: insertDesc x ys
    else x :: y :: ys

/-- Line 219: `cocktails_df.sort_values(by="dateModified", ascending=False)`,
modelled as a stable descending insertion sort. -/
def sort_values_desc (rows : List CatalogRow) : List CatalogRow :=
  rows.foldr insertDesc []

/-- The six columns of the `drop_duplicates` subset (lines 223-233) — every
selected column except `dateModified`. -/
def subsetKey (r : CatalogRow) : String × String × String × String × String × String :=
  (r.idDrink, r.strDrink, r.strCategory, r.strIBA, r.strAlcoholic, r.strGlass)

/-- Eliminates later rows whose subset key was already seen, i.e. pandas
`drop_duplicates(subset=..., keep="first")`. -/
def drop_duplicates_aux (seen : List (String × String × String × String × String × String)) :
    List CatalogRow → List CatalogRow
  | [] => []
  | r :: rs =>
    if subsetKey r ∈ seen then drop_duplicates_aux seen rs
    else r :: drop_duplicates_aux (subsetKey r :: seen) rs

/-- Lines 223-233: `drop_duplicates` over the six-column subset, keeping the
first occurrence. -/
def drop_duplicates (rows : List CatalogRow) : List CatalogRow :=
  drop_duplicates_aux [] rows

/-- Lines 217-233: concatenate the per-drink frames, sort descending by the
`dateModified` string, drop duplicate rows on the six-column subset keeping the
first (i.e. newest-sorted) row. -/
def processCocktails (rows : List CatalogRow) : List CatalogRow :=
  drop_duplicates (sort_values_desc rows)

/-- One cleaned row of `data/bar_data.csv` (lines 107-116); its fields are
opaque to every claim, which treat inventory rows whole. -/
structure InventoryRow where
  stockID : Nat
  glassType : String
  stock : Nat
  bar : String
deriving DecidableEq, Repr

/-- The three tables of `bar_db` that the script writes with `to_sql`. -/
structure Tables where
  global_sales : List SaleRecord
  bar_stock : List InventoryRow
  cocktails : List CatalogRow
deriving DecidableEq, Repr

/-- The `if_exists` argument of `DataFrame.to_sql`. -/
inductive IfExists
  | append
  | replace
deriving DecidableEq, Repr

/-- `DataFrame.to_sql` on an existing table: `append` adds the frame's rows
after the current ones, `replace` drops the table and writes the frame alone. -/
def to_sql {α : Type} (mode : IfExists) (table : List α) (df : List α) : List α :=
  match mode with
  | .append => table ++ df
  | .replace => df

/-- The run's inputs and the behaviour of its external world: the current
`last_update.txt`, the cleaned bar-stock frame, the three source frames (after
`read_csv` parsing), the lookup service, the pre-existing database tables, and
whether the sqlite persistence calls succeed. -/
structure Env where
  last_update : List (String × Option Nat)
  bar_stock_df : List InventoryRow
  budapest_rows : List SaleRecord
  london_rows : List SaleRecord
  new_york_rows : List SaleRecord
  lookup : String → LookupResult
  db : Tables
  sqlOk : Bool

/-- The `__main__` block (lines 79-257) restricted to the state the claims
mention.  Result: the contents of `last_update.txt` when the process exits,
and either the final tables or the exception that aborted the run.  Faithful
ordering: the three per-source filters (each an unguarded `date_dict[...]`
access, in source order BUDA, LON, NYC), the max of each filtered frame, the
rewrite of `last_update.txt` (lines 163-166) — which happens BEFORE the
enrichment loop and before any database write — then the enrichment loop, then
line 217 `pd.concat(dfs)`, which raises `ValueError` when the loop produced no
frames at all (no drink was ingested, so `master_drinks` was empty), then
the three `to_sql(..., if_exists="append")` calls.  `execute_external_sql_script_file`
swallows its own errors (see its model below) and does not alter the tables
here. -/
def runMain (env : Env) : List (String × Option Nat) × Except RunError Tables :=
  match fileToDict env.last_update "BUDA_date_max" with
  | none => (env.last_update, .error .keyError)
  | some budaW =>
    let budapest_df := wmFilter budaW env.budapest_rows
    match fileToDict env.last_update "LON_date_max" with
    | none => (env.last_update, .error .keyError)
    | some lonW =>
      let london_df := wmFilter lonW env.london_rows
      match fileToDict env.last_update "NYC_date_max" with
      | none => (env.last_update, .error .keyError)
      | some nyW =>
        let new_york_df := wmFilter nyW env.new_york_rows
        let fileAfter := newLastUpdate (wmCandidate nyW env.new_york_rows)
          (wmCandidate lonW env.london_rows) (wmCandidate budaW env.budapest_rows)
        let global_df := budapest_df ++ london_df ++ new_york_df
        match enrichmentLoop env.lookup (masterDrinks london_df new_york_df budapest_df) with
        | .error e => (fileAfter, .error e)
        | .ok dfs =>
          if dfs.isEmpty then (fileAfter, .error .valueError)
          else
          let cocktails_df := processCocktails dfs.flatten
          if env.sqlOk then
            (fileAfter,
              .ok { global_sales := to_sql .append env.db.global_sales global_df
                    bar_stock := to_sql .append env.db.bar_stock env.bar_stock_df
                    cocktails := to_sql .append env.db.cocktails cocktails_df })
          else (fileAfter, .error .sqlError)

/-- The logging calls the two SQL helpers make. -/
structure SqlLog where
  infoMsgs : List String
  errorMsgs : List String
deriving DecidableEq, Repr

/-- Lines 37-58, `execute_sql_script`: connect, run the script, commit — all
inside `try`; any `Exception` is logged and the function returns normally.
`dbExec script db` stands for the effect of `connect`/`executescript`/`commit`
for that script and database, which may raise.  The first component of the
result is what the caller observes: `.ok ()` for a normal return, `.error` for
a propagated exception. -/
def execute_sql_script (dbExec : String → String → Except String Unit)
    (sql_script_string db_name : String) : Except String Unit × SqlLog :=
  match dbExec sql_script_string db_name with
  | .ok _ => (.ok (), ⟨["Execute sql script complete."], []⟩)
  | .error e => (.ok (), ⟨[], ["SQL script failed to execute " ++ e]⟩)

/-- Lines 61-76, `execute_external_sql_script_file`: `open`/`read`/`close` are
OUTSIDE any `try`, so a file error propagates; the script text is then handed
to `execute_sql_script`. -/
def execute_external_sql_script_file (readFile : String → Except String String)
    (dbExec : String → String → Except String Unit)
    (script_file_path db_name : String) : Except String Unit × SqlLog :=
  match readFile script_file_path with
  | .error e => (.error e, ⟨[], []⟩)
  | .ok s => execute_sql_script dbExec s db_name

/-! ### Concrete inputs used by the per-claim counterexamples and witnesses -/

/-- A run whose persistence step fails: one new budapest sale past the stored
watermark `some 1`, a lookup service that answers, and `sqlOk := false`. -/
def envC1 : Env where
  last_update := [("NYC_date_max", some 1), ("LON_date_max", some 1), ("BUDA_date_max", some 1)]
  bar_stock_df := []
  budapest_rows := [⟨5, "mojito", 2⟩]
  london_rows := []
  new_york_rows := []
  lookup := fun _ => .ok [⟨"11000", "mojito", "cocktail", "unforgettables", "highball", "alcoholic", "2016-11-04"⟩]
  db := ⟨[], [], []⟩
  sqlOk := false

/-- A run in which the lookup service fails for the one drink ingested. -/
def envC2 : Env where
  last_update := [("NYC_date_max", some 1), ("LON_date_max", some 1), ("BUDA_date_max", some 1)]
  bar_stock_df := []
  budapest_rows := [⟨5, "mojito", 2⟩]
  london_rows := []
  new_york_rows := []
  lookup := fun _ => .failure
  db := ⟨[], [], []⟩
  sqlOk := true

/-- The catalog row the lookup service returns during the `envC3` run. -/
def rowC3 : CatalogRow := ⟨"11225", "gin", "cocktail", "iba", "alcoholic", "highball", "2017-09-02"⟩

/-- A run that ingests zero new records for budapest (its only sale is dated 3,
below the stored watermark 10) while london does ingest a record dated 5, so
the enrichment loop produces a frame, `pd.concat` succeeds, and the run
completes without error. -/
def envC3 : Env where
  last_update := [("NYC_date_max", some 0), ("LON_date_max", some 0), ("BUDA_date_max", some 10)]
  bar_stock_df := []
  budapest_rows := [⟨3, "mojito", 1⟩]
  london_rows := [⟨5, "gin", 1⟩]
  new_york_rows := []
  lookup := fun _ => .ok [rowC3]
  db := ⟨[], [], []⟩
  sqlOk := true

/-- Two catalog rows for the drink `"mojito"` that differ on a substantive
field (`strCategory`, and `idDrink`), the newer one first. -/
def rowC7a : CatalogRow := ⟨"1", "mojito", "cocktail", "iba", "alcoholic", "highball", "2017-01-01"⟩

/-- The conflicting older row for the same drink. -/
def rowC7b : CatalogRow := ⟨"2", "mojito", "ordinary drink", "iba", "alcoholic", "highball", "2016-01-01"⟩

/-- A row agreeing with `rowC7a` on every field of the dedup subset and older
on `dateModified`. -/
def rowC7c : CatalogRow := ⟨"1", "mojito", "cocktail", "iba", "alcoholic", "highball", "2016-01-01"⟩

/-- A pre-existing inventory row already in the `bar_stock` table. -/
def invX : InventoryRow := ⟨0, "highball", 5, "london"⟩

/-- The current run's inventory snapshot row. -/
def invY : InventoryRow := ⟨1, "coupe", 2, "budapest"⟩

/-- The catalog row the lookup service returns during the `envC8` run. -/
def rowC8 : CatalogRow := ⟨"11000", "mojito", "cocktail", "unforgettables", "alcoholic", "highball", "2016-11-04"⟩

/-- A run whose `bar_stock` table already holds `invX` while the current
snapshot is `[invY]`; budapest ingests a sale dated 5 past its watermark and
the lookup answers, so the run completes successfully. -/
def envC8 : Env where
  last_update := [("NYC_date_max", some 0), ("LON_date_max", some 0), ("BUDA_date_max", some 0)]
  bar_stock_df := [invY]
  budapest_rows := [⟨5, "mojito", 2⟩]
  london_rows := []
  new_york_rows := []
  lookup := fun _ => .ok [rowC8]
  db := ⟨[], [invX], []⟩
  sqlOk := true

/-- A first run: `last_update.txt` holds no entries at all. -/
def envC9 : Env where
  last_update := []
  bar_stock_df := []
  budapest_rows := [⟨5, "mojito", 1⟩]
  london_rows := []
  new_york_rows := []
  lookup := fun _ => .ok [⟨"11000", "mojito", "cocktail", "unforgettables", "highball", "alcoholic", "2016-11-04"⟩]
  db := ⟨[], [], []⟩
  sqlOk := true

/-! ### Helper lemmas about `seriesMax` -/

theorem seriesMax_eq_none_iff {l : List Nat} : seriesMax l = none ↔ l = [] := by
  cases l with
  | nil => simp [seriesMax]
  | cons d ds =>
    constructor
    · intro h
      cases hds : seriesMax ds <;> simp [seriesMax, hds] at h
    · intro h
      exact absurd h (List.cons_ne_nil d ds)

theorem seriesMax_mem : ∀ {l : List Nat} {m : Nat}, seriesMax l = some m → m ∈ l := by
  intro l
  induction l with
  | nil => intro m h; simp [seriesMax] at h
  | cons d ds ih =>
    intro m h
    cases hds : seriesMax ds with
    | none =>
      simp [seriesMax, hds] at h
      simp [h]
    | some m' =>
      simp [seriesMax, hds] at h
      rcases max_choice d m' with hmax | hmax <;> rw [hmax] at h
      · simp [h]
      · exact List.mem_cons_of_mem d (h ▸ ih hds)

theorem le_seriesMax : ∀ {l : List Nat} {x m : Nat}, x ∈ l → seriesMax l = some m → x ≤ m := by
  intro l
  induction l with
  | nil => intro x m hx _; simp at hx
  | cons d ds ih =>
    intro x m hx h
    cases hds : seriesMax ds with
    | none =>
      have : ds = [] := seriesMax_eq_none_iff.mp hds
      subst this
      simp [seriesMax] at h
      simp at hx
      omega
    | some m' =>
      simp [seriesMax, hds] at h
      rcases List.mem_cons.mp hx with rfl | hx'
      · calc x ≤ max x m' := le_max_left x m'
          _ = m := h
      · calc x ≤ m' := ih hx' hds
          _ ≤ max d m' := le_max_right d m'
          _ = m := h

theorem seriesMax_filter {w : Nat} : ∀ {l : List Nat}, (∃ x ∈ l, w < x) →
    seriesMax (l.filter (fun x => w < x)) = seriesMax l := by
  intro l
  induction l with
  | nil => intro h; simp at h
  | cons d ds ih =>
    intro h
    by_cases hd : w < d
    · rw [List.filter_cons_of_pos (by simpa using hd)]
      by_cases hex : ∃ x ∈ ds, w < x
      · have ih' := ih hex
        simp only [seriesMax, ih']
      · have hnil : ds.filter (fun x => w < x) = [] := by
          rw [List.filter_eq_nil_iff]
          intro a ha
          simpa using fun hwa => hex ⟨a, ha, hwa⟩
        rw [hnil]
        cases hds : seriesMax ds with
        | none => simp [seriesMax, hds]
        | some m =>
          have hm : m ∈ ds := seriesMax_mem hds
          have hmw : ¬w < m := fun hwm => hex ⟨m, hm, hwm⟩
          have : max d m = d := max_eq_left (by omega)
          simp [seriesMax, hds, this]
    · rw [List.filter_cons_of_neg (by simpa using hd)]
      obtain ⟨x, hx, hwx⟩ := h
      rcases List.mem_cons.mp hx with rfl | hx'
      · exact absurd hwx hd
      · have hex : ∃ x ∈ ds, w < x := ⟨x, hx', hwx⟩
        cases hds : seriesMax ds with
        | none =>
          have : ds = [] := seriesMax_eq_none_iff.mp hds
          subst this
          simp at hx'
        | some m =>
          have hxm : x ≤ m := le_seriesMax hx' hds
          have : max d m = m := max_eq_right (by omega)
          rw [ih hex, hds]
          simp [seriesMax, hds, this]

/-! ### C4 — strict-greater-than watermark filter -/

/-- C4: for every record stream and watermark `W`, the ingestion filter
(`df.loc[df["dateOfSale"] > W]`) outputs exactly the subsequence of records
with `dateOfSale` strictly greater than `W` — it is a sublist of the input,
its members are exactly the input records past the boundary (with unchanged
multiplicity), and a record dated exactly `W` is excluded. -/
theorem wmFilter_strictly_greater (W : Nat) (rows : List SaleRecord) :
    (wmFilter (some W) rows).Sublist rows ∧
    (∀ r, r ∈ wmFilter (some W) rows ↔ r ∈ rows ∧ W < r.dateOfSale) ∧
    (∀ r, W < r.dateOfSale → (wmFilter (some W) rows).count r = rows.count r) ∧
    (∀ r, r.dateOfSale = W → r ∉ wmFilter (some W) rows) := by
  refine ⟨List.filter_sublist rows, ?_, ?_, ?_⟩
  · intro r
    simp [wmFilter, List.mem_filter]
  · intro r hr
    exact List.count_filter (by simpa using hr)
  · intro r hr hmem
    rw [wmFilter] at hmem
    have := (List.mem_filter.mp hmem).2
    simp [hr] at this

/-- C4 witness: at watermark 5, the record dated exactly 5 is excluded. -/
theorem wmFilter_strictly_greater_witness :
    (⟨5, "mojito", 3⟩ : SaleRecord) ∉ wmFilter (some 5) [⟨5, "mojito", 3⟩] :=
  (wmFilter_strictly_greater 5 [⟨5, "mojito", 3⟩]).2.2.2 ⟨5, "mojito", 3⟩ rfl

/-! ### C5 — what the new watermark candidate is the max of -/

/-- C5 counterexample: with stored watermark 4 and a single (unfiltered) input
record dated 3, the script's candidate is `NaT` (the max of the filtered,
empty frame), not the maximum `3` of the unfiltered input. -/
theorem wmCandidate_not_unfiltered_max_cex :
    wmCandidate (some 4) [⟨3, "mojito", 2⟩] = none ∧
    seriesMax (([⟨3, "mojito", 2⟩] : List SaleRecord).map (fun r => r.dateOfSale)) = some 3 ∧
    wmCandidate (some 4) [⟨3, "mojito", 2⟩] ≠
      seriesMax (([⟨3, "mojito", 2⟩] : List SaleRecord).map (fun r => r.dateOfSale)) := by
  refine ⟨rfl, rfl, ?_⟩
  decide

/-- C5 amended: the new watermark candidate is the maximum `dateOfSale` of the
FILTERED frame (`NaT` when no record passes); it coincides with the maximum of
the unfiltered input exactly whenever at least one record passes the filter. -/
theorem wmCandidate_is_filtered_max (W : Nat) (rows : List SaleRecord) :
    wmCandidate (some W) rows =
      seriesMax ((wmFilter (some W) rows).map (fun r => r.dateOfSale)) ∧
    ((∃ r ∈ rows, W < r.dateOfSale) →
      wmCandidate (some W) rows = seriesMax (rows.map (fun r => r.dateOfSale))) := by
  refine ⟨rfl, ?_⟩
  intro h
  show seriesMax ((rows.filter (fun r => W < r.dateOfSale)).map (fun r => r.dateOfSale)) = _
  have hcomm :
      (rows.filter (fun r => W < r.dateOfSale)).map (fun r => r.dateOfSale) =
        (rows.map (fun r => r.dateOfSale)).filter (fun x => W < x) := by
    rw [List.filter_map]
    rfl
  rw [hcomm]
  apply seriesMax_filter
  obtain ⟨r, hr, hWr⟩ := h
  exact ⟨r.dateOfSale, List.mem_map.mpr ⟨r, hr, rfl⟩, hWr⟩

/-- C5 amended witness: with watermark 1 and one record dated 2 the candidate
equals the unfiltered maximum. -/
theorem wmCandidate_is_filtered_max_witness :
    wmCandidate (some 1) [⟨2, "mojito", 2⟩] =
      seriesMax (([⟨2, "mojito", 2⟩] : List SaleRecord).map (fun r => r.dateOfSale)) :=
  (wmCandidate_is_filtered_max 1 [⟨2, "mojito", 2⟩]).2 ⟨⟨2, "mojito", 2⟩, by simp, by decide⟩

/-! ### C3 — watermark on a run with zero new records -/

/-- C3 counterexample: a run in which budapest has zero records past its
stored watermark `some 10` (while london ingests a record, so the run reaches
persistence and COMPLETES with `.ok`) rewrites the stored budapest watermark
to `none` (the string `"NaT"`) — not to the prior value `some 10`, which is a
regression, not monotone non-decrease. -/
theorem zero_new_records_clobbers_watermark_cex :
    wmFilter (some 10) envC3.budapest_rows = [] ∧
    fileToDict envC3.last_update "BUDA_date_max" = some (some 10) ∧
    runMain envC3 =
      ([("NYC_date_max", none), ("LON_date_max", some 5), ("BUDA_date_max", none)],
        .ok ⟨[⟨5, "gin", 1⟩], [], [rowC3]⟩) :=
  ⟨rfl, rfl, rfl⟩

/-- C3 amended: when zero records pass a source's filter, the stored candidate
becomes `none` (`"NaT"`), i.e. the prior watermark is overwritten rather than
left unchanged; when at least one record passes, the candidate is `some m`
with `m` strictly greater than the prior watermark (so the watermark does
advance monotonically exactly in the nonempty case). -/
theorem watermark_clobbered_or_advanced (W : Nat) (rows : List SaleRecord) :
    (wmFilter (some W) rows = [] → wmCandidate (some W) rows = none) ∧
    (wmFilter (some W) rows ≠ [] →
      ∃ m, wmCandidate (some W) rows = some m ∧ W < m) := by
  constructor
  · intro h
    rw [wmCandidate, h]
    rfl
  · intro h
    cases hsm : wmCandidate (some W) rows with
    | none =>
      rw [wmCandidate] at hsm
      have := seriesMax_eq_none_iff.mp hsm
      exact absurd (List.map_eq_nil_iff.mp this) h
    | some m =>
      refine ⟨m, rfl, ?_⟩
      rw [wmCandidate] at hsm
      have hm := seriesMax_mem hsm
      obtain ⟨r, hr, hrm⟩ := List.mem_map.mp hm
      have : W < r.dateOfSale := by
        have := (List.mem_filter.mp hr).2
        simpa using this
      omega

/-- C3 amended witness: with watermark 10 and only a record dated 3, the
candidate written back is `none` (`"NaT"`). -/
theorem watermark_clobbered_or_advanced_witness :
    wmCandidate (some 10) [⟨3, "mojito", 1⟩] = none :=
  (watermark_clobbered_or_advanced 10 [⟨3, "mojito", 1⟩]).1 rfl

/-! ### C1 — when the watermark file is rewritten -/

/-- C1 counterexample: a run whose persistence fails (`sqlOk = false`) still
leaves `last_update.txt` holding the ADVANCED budapest watermark `some 5`
(the prior stored value was `some 1`): the file is rewritten before any store
write, so a failed persistence step does not leave it untouched. -/
theorem watermark_advanced_despite_persistence_failure_cex :
    (runMain envC1).2 = .error .sqlError ∧
    fileToDict envC1.last_update "BUDA_date_max" = some (some 1) ∧
    fileToDict (runMain envC1).1 "BUDA_date_max" = some (some 5) :=
  ⟨rfl, rfl, rfl⟩

/-- C1 amended: whenever the three watermark keys are present (so the run gets
past the `date_dict` accesses), `last_update.txt` ends up holding the new
per-source candidates REGARDLESS of the run's outcome — the rewrite happens
right after filtering, before enrichment and before any database write, so a
later failure leaves the new watermarks, not the prior ones, on disk. -/
theorem watermark_file_rewritten_before_persistence (env : Env) (bW lW nW : Option Nat)
    (hb : fileToDict env.last_update "BUDA_date_max" = some bW)
    (hl : fileToDict env.last_update "LON_date_max" = some lW)
    (hn : fileToDict env.last_update "NYC_date_max" = some nW) :
    (runMain env).1 =
      newLastUpdate (wmCandidate nW env.new_york_rows) (wmCandidate lW env.london_rows)
        (wmCandidate bW env.budapest_rows) := by
  simp only [runMain, hb, hl, hn]
  split
  · rfl
  · split
    · rfl
    · split <;> rfl

/-- C1 amended witness: on the concrete failing-persistence run the file holds
the new candidates. -/
theorem watermark_file_rewritten_before_persistence_witness :
    (runMain envC1).1 =
      newLastUpdate (wmCandidate (some 1) envC1.new_york_rows)
        (wmCandidate (some 1) envC1.london_rows) (wmCandidate (some 1) envC1.budapest_rows) :=
  watermark_file_rewritten_before_persistence envC1 (some 1) (some 1) (some 1) rfl rfl rfl

/-! ### C2 — what a lookup failure does to the run -/

/-- C2: for a drink whose lookup fails, `cocktail_extract` itself swallows the
exception and returns an empty frame — but the enrichment loop immediately
selects the seven catalog columns on that empty frame, which raises `KeyError`
and ABORTS the whole run (here: a run that would otherwise persist
successfully ends in `.error .keyError`), contradicting the claim that a
lookup failure is recorded and never aborts the run. -/
theorem lookup_failure_aborts_run :
    cocktail_extract envC2.lookup "mojito" = [] ∧
    selectCols (cocktail_extract envC2.lookup "mojito") = .error .keyError ∧
    (runMain envC2).2 = .error .keyError :=
  ⟨rfl, rfl, rfl⟩

/-! ### C9 — first run with no prior watermark -/

/-- C9: on a first run with an empty `last_update.txt`, the watermark read is
the unguarded `date_dict["BUDA_date_max"]` access, which raises `KeyError` and
aborts the run immediately — no sentinel beginning-of-time value is supplied
and nothing is ingested. -/
theorem missing_watermark_entry_raises_keyerror :
    fileToDict envC9.last_update "BUDA_date_max" = none ∧
    runMain envC9 = ([], .error .keyError) :=
  ⟨rfl, rfl⟩

/-! ### C6 — exactly-once lookup per distinct drink -/

theorem enrichmentCalls_sublist {lookup : String → LookupResult} :
    ∀ ds : List String, (enrichmentCalls lookup ds).Sublist ds := by
  intro ds
  induction ds with
  | nil => exact List.Sublist.refl []
  | cons d ds ih =>
    rw [enrichmentCalls]
    cases selectCols (cocktail_extract lookup d) with
    | error e => exact (List.nil_sublist ds).cons₂ d
    | ok sel => exact ih.cons₂ d

theorem enrichmentCalls_of_all_ok {lookup : String → LookupResult} :
    ∀ {ds : List String}, (∀ d ∈ ds, cocktail_extract lookup d ≠ []) →
      enrichmentCalls lookup ds = ds := by
  intro ds
  induction ds with
  | nil => intro _; rfl
  | cons d ds ih =>
    intro h
    cases hce : cocktail_extract lookup d with
    | nil => exact absurd hce (h d (List.mem_cons_self d ds))
    | cons r rs =>
      simp only [enrichmentCalls, hce, selectCols]
      rw [ih (fun x hx => h x (List.mem_cons_of_mem d hx))]

/-- C6: every drink appearing in the filtered sales streams occurs exactly once
in `master_drinks` (deduplication across all three sources before lookup);
provided every lookup in the run answers with rows, so the loop reaches its
end, the enrichment loop submits that drink to the lookup service exactly
once, no matter how many sale records reference it; and under EVERY lookup
behaviour (including an aborting run) the drink is submitted at most once. -/
theorem each_distinct_drink_looked_up_once
    (london_df new_york_df budapest_df : List SaleRecord)
    (lookup : String → LookupResult) (k : String)
    (hk : k ∈ (budapest_df ++ london_df ++ new_york_df).map (fun r => r.drink))
    (hok : ∀ d ∈ masterDrinks london_df new_york_df budapest_df,
      cocktail_extract lookup d ≠ []) :
    (masterDrinks london_df new_york_df budapest_df).count k = 1 ∧
    (enrichmentCalls lookup (masterDrinks london_df new_york_df budapest_df)).count k = 1 ∧
    (∀ lookup2 : String → LookupResult,
      (enrichmentCalls lookup2 (masterDrinks london_df new_york_df budapest_df)).count k ≤ 1) := by
  have hmem : k ∈ uniqueDrinks london_df ++ uniqueDrinks new_york_df ++ uniqueDrinks budapest_df := by
    simp only [uniqueDrinks]
    rw [List.map_append, List.map_append] at hk
    rcases List.mem_append.mp hk with h | h'
    · rcases List.mem_append.mp h with h | h
      · exact List.mem_append.mpr (Or.inr (List.mem_dedup.mpr h))
      · exact List.mem_append.mpr (Or.inl (List.mem_append.mpr (Or.inl (List.mem_dedup.mpr h))))
    · exact List.mem_append.mpr (Or.inl (List.mem_append.mpr (Or.inr (List.mem_dedup.mpr h'))))
  have hcount : (masterDrinks london_df new_york_df budapest_df).count k = 1 := by
    rw [masterDrinks, List.count_dedup, if_pos hmem]
  refine ⟨hcount, ?_, ?_⟩
  · rw [enrichmentCalls_of_all_ok hok]
    exact hcount
  · intro lookup2
    calc (enrichmentCalls lookup2 (masterDrinks london_df new_york_df budapest_df)).count k
        ≤ (masterDrinks london_df new_york_df budapest_df).count k :=
          (enrichmentCalls_sublist _).count_le k
      _ = 1 := hcount

/-- C6 witness: `"mojito"` sold in both london and budapest is queried once. -/
theorem each_distinct_drink_looked_up_once_witness :
    ((masterDrinks [⟨1, "mojito", 0⟩] [] [⟨2, "mojito", 1⟩]).count "mojito" = 1) ∧
    ((enrichmentCalls (fun _ => .ok [⟨"11000", "mojito", "cocktail", "u", "a", "h", "2016"⟩])
        (masterDrinks [⟨1, "mojito", 0⟩] [] [⟨2, "mojito", 1⟩])).count "mojito" = 1) :=
  ⟨(each_distinct_drink_looked_up_once [⟨1, "mojito", 0⟩] [] [⟨2, "mojito", 1⟩]
      (fun _ => .ok [⟨"11000", "mojito", "cocktail", "u", "a", "h", "2016"⟩]) "mojito"
      (by decide) (by decide)).1,
    (each_distinct_drink_looked_up_once [⟨1, "mojito", 0⟩] [] [⟨2, "mojito", 1⟩]
      (fun _ => .ok [⟨"11000", "mojito", "cocktail", "u", "a", "h", "2016"⟩]) "mojito"
      (by decide) (by decide)).2.1⟩

/-! ### C7 — collapsing multiple catalog rows per drink -/

/-- C7 counterexample: the lookup returns two rows for `"mojito"` that differ
on a substantive field (`strCategory`); after the sort and the
six-column-subset `drop_duplicates`, BOTH rows survive — the resolver does not
collapse the candidates for this key to one canonical row. -/
theorem conflicting_rows_not_collapsed_cex :
    ((processCocktails [rowC7a, rowC7b]).filter (fun r => r.strDrink = "mojito")).length = 2 := by
  decide

/-- C7 amended: rows for a key are collapsed only when they agree on all six
subset columns (everything selected except `dateModified`); for two such rows
with different `dateModified`, whichever input order, the kept row is the one
with the greater `dateModified` (sorted first by the descending sort, then the
duplicate is dropped).  Rows for the same drink that differ on a substantive
column are all kept. -/
theorem duplicate_rows_keep_latest_modified (r1 r2 : CatalogRow)
    (hk : subsetKey r1 = subsetKey r2)
    (hd : r2.dateModified.data < r1.dateModified.data) :
    processCocktails [r1, r2] = [r1] ∧ processCocktails [r2, r1] = [r1] := by
  have h1 : ¬ r1.dateModified.data < r2.dateModified.data := lt_asymm hd
  constructor
  · simp [processCocktails, sort_values_desc, insertDesc, h1,
      drop_duplicates, drop_duplicates_aux, hk.symm]
  · simp [processCocktails, sort_values_desc, insertDesc, hd,
      drop_duplicates, drop_duplicates_aux, hk.symm]

/-- C7 amended witness: two rows identical on the subset columns, dated
2017-01-01 and 2016-01-01 — the newer row is kept from either input order. -/
theorem duplicate_rows_keep_latest_modified_witness :
    processCocktails [rowC7a, rowC7c] = [rowC7a] ∧
    processCocktails [rowC7c, rowC7a] = [rowC7a] :=
  duplicate_rows_keep_latest_modified rowC7a rowC7c rfl (by decide)

/-! ### C8 — inventory persistence semantics -/

/-- C8 counterexample: a successful run over a `bar_stock` table already
holding `invX`, with current snapshot `[invY]`, ends with the table holding
BOTH rows — the write is `to_sql(..., if_exists="append")`, so the table does
not contain just the current run's snapshot. -/
theorem inventory_appended_not_replaced_cex :
    (runMain envC8).2 = .ok ⟨[⟨5, "mojito", 2⟩], [invX, invY], [rowC8]⟩ ∧
    ([invX, invY] : List InventoryRow) ≠ [invY] :=
  ⟨rfl, by decide⟩

/-- C8 amended: the persistence writer APPENDS the inventory snapshot to the
stored rows — after the run the inventory table holds the prior rows followed
by the snapshot, and it equals the snapshot alone exactly when the prior table
was empty. -/
theorem inventory_write_appends (prior snapshot : List InventoryRow) :
    to_sql .append prior snapshot = prior ++ snapshot ∧
    (to_sql .append prior snapshot = snapshot ↔ prior = []) := by
  refine ⟨rfl, ?_⟩
  show prior ++ snapshot = snapshot ↔ prior = []
  exact List.append_left_eq_self

/-- C8 amended witness: appending `[invY]` to a table holding `[invX]`. -/
theorem inventory_write_appends_witness :
    to_sql .append [invX] [invY] = [invX] ++ [invY] :=
  (inventory_write_appends [invX] [invY]).1

/-! ### C10 — the SQL helpers swallow execution errors -/

/-- C10: whatever the sqlite execution of the script does — succeed or raise —
`execute_sql_script` returns normally (first component `.ok ()`), and so does
`execute_external_sql_script_file` whenever the script file itself reads
successfully: an error while executing the script is logged, never propagated,
so the caller cannot distinguish a failed table-creation step from a
successful one. -/
theorem execute_sql_script_never_raises
    (dbExec : String → String → Except String Unit)
    (readFile : String → Except String String)
    (sql_script_string db_name script_file_path : String) :
    (execute_sql_script dbExec sql_script_string db_name).1 = .ok () ∧
    (∀ content, readFile script_file_path = .ok content →
      (execute_external_sql_script_file readFile dbExec script_file_path db_name).1 = .ok ()) := by
  constructor
  · rcases hdb : dbExec sql_script_string db_name with u | e <;>
      simp [execute_sql_script, hdb]
  · intro content h
    rcases hdb : dbExec content db_name with u | e <;>
      simp [execute_external_sql_script_file, execute_sql_script, h, hdb]

/-- C10 witness: a script whose execution raises is swallowed by both
helpers. -/
theorem execute_sql_script_never_raises_witness :
    (execute_sql_script (fun _ _ => .error "boom") "CREATE TABLE t;" "bar_db").1 = .ok () ∧
    (execute_external_sql_script_file (fun _ => .ok "CREATE TABLE t;")
      (fun _ _ => .error "boom") "data_tables.sql" "bar_db").1 = .ok () :=
  ⟨(execute_sql_script_never_raises (fun _ _ => .error "boom")
      (fun _ => .ok "CREATE TABLE t;") "CREATE TABLE t;" "bar_db" "data_tables.sql").1,
    (execute_sql_script_never_raises (fun _ _ => .error "boom")
      (fun _ => .ok "CREATE TABLE t;") "CREATE TABLE t;" "bar_db" "data_tables.sql").2
      "CREATE TABLE t;" rfl⟩
